import Mathlib

/-!
Verification development for the Bollywood article-transformer browser
extension.  The content script (content.js) and the background service
worker (background.js) are shallowly embedded: the DOM is a tree of
elements, CSS selectors are parsed into simple structural patterns, the
asynchronous `transformArticle` routine becomes a two-phase step function
(the phase boundary is the `await` of the background response), and the
background worker's two Gemini calls are driven by an oracle describing
each fetch's outcome.

JavaScript string primitives (`trim`, `split`, `startsWith`, `length`,
string truthiness) are embedded as structurally recursive functions over
the character list of a `String`, so every definition evaluates by kernel
reduction on concrete inputs.
-/

namespace WebExt

/-! ## JavaScript string primitives -/

/-- JS `String.prototype.trim`: strip leading and trailing whitespace. -/
def jsTrim (s : String) : String :=
  ⟨((s.data.dropWhile Char.isWhitespace).reverse.dropWhile Char.isWhitespace).reverse⟩

def splitCharAux (c : Char) : List Char → List Char → List String
  | [], acc => [⟨acc.reverse⟩]
  | x :: xs, acc =>
    if x = c then ⟨acc.reverse⟩ :: splitCharAux c xs []
    else splitCharAux c xs (x :: acc)

/-- JS `String.prototype.split` with a single-character separator. -/
def splitChar (s : String) (c : Char) : List String :=
  splitCharAux c s.data []

def jsStartsWith (s pre : String) : Bool := pre.data.isPrefixOf s.data

def jsEndsWith (s suf : String) : Bool := suf.data.isSuffixOf s.data

/-- JS `String.prototype.length` (code points suffice for this code base). -/
def jsLength (s : String) : Nat := s.data.length

def jsContainsChar (s : String) (c : Char) : Bool := s.data.contains c

/-- `Array.prototype.join` with a separator string. -/
def joinSep (sep : String) : List String → String
  | [] => ""
  | [x] => x
  | x :: xs => x ++ sep ++ joinSep sep xs

/-- JS string truthiness on an optional string: `null`/`undefined` and the
empty string are falsy. -/
def truthy : Option String → Bool
  | some s => s != ""
  | none => false

/-- The JS idiom `x || dflt` applied to an optional string: the default is
taken when the value is absent or the empty string. -/
def jsOr (m : Option String) (dflt : String) : String :=
  match m with
  | some s => if s != "" then s else dflt
  | none => dflt

/-! ## DOM model -/

/-- A DOM element: tag name, class list, id attribute, other attributes,
visibility (`offsetParent !== null`), its own text, and child elements. -/
inductive Elem where
  | mk : String → List String → String → List (String × String) → Bool → String → List Elem → Elem

def Elem.tag : Elem → String
  | .mk t _ _ _ _ _ _ => t

def Elem.classes : Elem → List String
  | .mk _ c _ _ _ _ _ => c

def Elem.idAttr : Elem → String
  | .mk _ _ i _ _ _ _ => i

def Elem.attrs : Elem → List (String × String)
  | .mk _ _ _ a _ _ _ => a

def Elem.visible : Elem → Bool
  | .mk _ _ _ _ v _ _ => v

def Elem.children : Elem → List Elem
  | .mk _ _ _ _ _ _ k => k

/-- Attribute lookup, `none` when the attribute is missing. -/
def Elem.attr (e : Elem) (name : String) : Option String :=
  (e.attrs.find? (fun p => p.1 == name)).map (fun p => p.2)

mutual

/-- `textContent`: the element's own text followed by its descendants' text. -/
def elemText : Elem → String
  | .mk _ _ _ _ _ own kids => own ++ listText kids
termination_by structural e => e

def listText : List Elem → String
  | [] => ""
  | e :: es => elemText e ++ listText es
termination_by structural l => l

end

mutual

/-- First element matching `p` in document order, the element itself included. -/
def queryFirst (p : Elem → Bool) : Elem → Option Elem
  | .mk t cs i as v tx kids =>
    if p (.mk t cs i as v tx kids) then some (.mk t cs i as v tx kids)
    else queryFirstList p kids
termination_by structural e => e

def queryFirstList (p : Elem → Bool) : List Elem → Option Elem
  | [] => none
  | x :: xs =>
    match queryFirst p x with
    | some r => some r
    | none => queryFirstList p xs
termination_by structural l => l

end

mutual

/-- All elements matching `p` in document order, the element itself included. -/
def queryAllElem (p : Elem → Bool) : Elem → List Elem
  | .mk t cs i as v tx kids =>
    (if p (.mk t cs i as v tx kids) then [Elem.mk t cs i as v tx kids] else []) ++
      queryAllList p kids
termination_by structural e => e

def queryAllList (p : Elem → Bool) : List Elem → List Elem
  | [] => []
  | x :: xs => queryAllElem p x ++ queryAllList p xs
termination_by structural l => l

end

/-- A parsed simple CSS selector: a tag name optionally refined by one class,
one id, or one attribute test (present, or equal to a value). -/
structure SelSpec where
  tagName : String
  cls : Option String
  idSel : Option String
  attrName : Option String
  attrVal : Option String

def stripQuotes (s : String) : String :=
  if jsStartsWith s "\"" && jsEndsWith s "\"" then ⟨(s.data.drop 1).dropLast⟩ else s

/-- Parse the simple selector shapes the extension uses:
`tag`, `tag.class`, `tag#id`, `tag[attr]`, `tag[attr="value"]`. -/
def parseSimpleSel (s : String) : SelSpec :=
  if jsContainsChar s '[' then
    let tagName := (splitChar s '[').headD ""
    let inner := (splitChar ((splitChar s '[').getD 1 "") ']').headD ""
    if jsContainsChar inner '=' then
      SelSpec.mk tagName none none (some ((splitChar inner '=').headD ""))
        (some (stripQuotes ((splitChar inner '=').getD 1 "")))
    else
      SelSpec.mk tagName none none (some inner) none
  else if jsContainsChar s '.' then
    SelSpec.mk ((splitChar s '.').headD "") (some ((splitChar s '.').getD 1 "")) none none none
  else if jsContainsChar s '#' then
    SelSpec.mk ((splitChar s '#').headD "") none (some ((splitChar s '#').getD 1 "")) none none
  else
    SelSpec.mk s none none none none

def specMatches (sp : SelSpec) (e : Elem) : Bool :=
  e.tag == sp.tagName &&
  (match sp.cls with
   | some c => e.classes.contains c
   | none => true) &&
  (match sp.idSel with
   | some i => e.idAttr == i
   | none => true) &&
  (match sp.attrName, sp.attrVal with
   | some n, some v => e.attr n == some v
   | some n, none => (e.attr n).isSome
   | none, _ => true)

/-- A selector string, possibly a comma-separated list of simple selectors. -/
def selMatches (s : String) (e : Elem) : Bool :=
  ((splitChar s ',').map jsTrim).any (fun one => specMatches (parseSimpleSel one) e)

/-- A page: the DOM root plus `document.title`. -/
structure Document where
  root : Elem
  docTitle : String

/-- `document.querySelector`. -/
def docQuery (d : Document) (s : String) : Option Elem :=
  queryFirst (selMatches s) d.root

/-- `document.querySelectorAll`, in document order. -/
def docQueryAll (d : Document) (s : String) : List Elem :=
  queryAllElem (selMatches s) d.root

/-- `element.querySelector` (proper descendants only). -/
def elemQueryFirst (e : Elem) (s : String) : Option Elem :=
  queryFirstList (selMatches s) e.children

/-- `element.querySelectorAll` (proper descendants only), in document order. -/
def elemQueryAll (e : Elem) (s : String) : List Elem :=
  queryAllList (selMatches s) e.children

/-! ## content.js: extraction -/

def titleSelectors : List String :=
  ["h1.artTitle", "h1[itemprop=\"headline\"]", "h1.story-title", "h1.headline",
   "h1", "meta[property=\"og:title\"]", "title"]

/-- The selector loop of `getArticleTitle`: a selector's first match is
returned (trimmed) only when its raw `textContent` is truthy and the
selector starts with `h1`; otherwise the loop continues. -/
def titleLoop (d : Document) : List String → Option String
  | [] => none
  | sel :: rest =>
    match docQuery d sel with
    | some e =>
      if elemText e != "" && jsStartsWith sel "h1" then some (jsTrim (elemText e))
      else titleLoop d rest
    | none => titleLoop d rest

/-- The `document.title` fallback at the end of `getArticleTitle`. -/
def titleFallbackDocTitle (d : Document) : Option String :=
  if d.docTitle != "" then some (jsTrim d.docTitle) else none

/-- `getArticleTitle` from content.js. -/
def getArticleTitle (d : Document) : Option String :=
  match titleLoop d titleSelectors with
  | some t => some t
  | none =>
    match docQuery d "meta[property=\"og:title\"]" with
    | some m =>
      match m.attr "content" with
      | some c => if c != "" then some (jsTrim c) else titleFallbackDocTitle d
      | none => titleFallbackDocTitle d
    | none => titleFallbackDocTitle d

def articleBodySelectors : List String :=
  ["div._3g2R-", "div[itemprop=\"articleBody\"]", "article", "div.story-content",
   "div.article-body", "div.section-article-text", "div.content-wrapper",
   "div.article-detail", "div.entry-content", "div.td-post-content",
   "div.primary-content", "div.fl-post-content", "div.inner-content",
   "div.story-element-text", "div.detail-content", "div._3MkB4",
   "div[data-story-id]", "div.article-content", "div.full_story",
   "div#content-area", "div.story_content", "div.Normal"]

/-- The container-search loop of `getArticleBody`: the first selector with a
match wins. -/
def findContainer (d : Document) : List String → Option Elem
  | [] => none
  | sel :: rest =>
    match docQuery d sel with
    | some e => some e
    | none => findContainer d rest

/-- `getArticleBody` from content.js. -/
def getArticleBody (d : Document) : Option String :=
  let mainArticleElement := findContainer d articleBodySelectors
  let articleText : List String :=
    match mainArticleElement with
    | none =>
      (docQueryAll d "p, div.Normal").filterMap (fun p =>
        let text := jsTrim (elemText p)
        if 100 < jsLength text ∧ 10 < (splitChar text ' ').length then some text else none)
    | some c =>
      let paragraphs := elemQueryAll c "p, div.Normal"
      if 0 < paragraphs.length then
        paragraphs.filterMap (fun p =>
          let text := jsTrim (elemText p)
          if 50 < jsLength text then some text else none)
      else
        let directText := jsTrim (elemText c)
        if 100 < jsLength directText then [directText] else []
  if 0 < articleText.length then some (joinSep "\n\n" articleText) else none

/-! ## content.js: rendering (`updateArticleBody`) -/

def articleBodyContainerSelectors : List String :=
  ["div[data-articlebody=\"1\"]", "div.vSlIC", "div._3g2R-", "article",
   "div.story-content", "div.article-body", "div.Normal",
   "div.section-article-text", "div.content-wrapper", "div.article-detail",
   "div.entry-content", "div.td-post-content", "div.primary-content",
   "div.fl-post-content", "div.inner-content", "div.story-element-text",
   "div.detail-content", "div._3MkB4", "div[data-story-id]",
   "div.article-content", "div.full_story", "div#content-area",
   "div.story_content"]

/-- The qualification heuristic of `updateArticleBody`: the element is
visible and contains a `p` or `div.Normal` descendant, or has more than 200
characters of trimmed text, or is the `div.vSlIC` selector with more than 50
characters of trimmed text. -/
def containerQualifies (sel : String) (e : Elem) : Bool :=
  e.visible &&
  ((elemQueryFirst e "p").isSome || (elemQueryFirst e "div.Normal").isSome ||
    200 < jsLength (jsTrim (elemText e)) ||
    (sel == "div.vSlIC" && 50 < jsLength (jsTrim (elemText e))))

/-- The container-search loop of `updateArticleBody`: the first selector
whose match qualifies wins; a non-qualifying match does not stop the loop. -/
def findUpdateContainer (d : Document) : List String → Option (String × Elem)
  | [] => none
  | sel :: rest =>
    match docQuery d sel with
    | some e =>
      if containerQualifies sel e then some (sel, e)
      else findUpdateContainer d rest
    | none => findUpdateContainer d rest

def signatureText : String := "— Your Bollywood News Transformer"

/-- The lyrics block `updateArticleBody` constructs: one `p` child per
non-blank line of the lyrics, then a signature `p`. -/
def mkLyricsContainer (songLyrics : String) : Elem :=
  let lines := (splitChar songLyrics '\n').filter (fun line => jsTrim line != "")
  let paras := lines.map (fun line => Elem.mk "p" ["my-2"] "" [] true line [])
  let signature := Elem.mk "p" ["mt-6", "italic", "text-gray-600", "text-sm"] "" [] true
    signatureText []
  Elem.mk "div" ["bollywood-lyrics-container"] "" [] true "" (paras ++ [signature])

/-- The fallback block appended to `document.body` when no container
qualifies: a heading, the raw lyrics, and the signature. -/
def mkAppendedSection (songLyrics : String) : Elem :=
  Elem.mk "div" ["bollywood-content-appended"] "" [] true ""
    [Elem.mk "h2" ["text-2xl", "font-bold", "text-purple-700", "mb-4"] "" [] true
       "� A Bollywood Extravaganza! 🎶" [],
     Elem.mk "div" ["text-lg", "text-gray-800", "whitespace-pre-wrap"] "" [] true songLyrics [],
     Elem.mk "p" ["mt-6", "italic", "text-gray-600", "text-sm"] "" [] true signatureText []]

/-- The DOM effect of `updateArticleBody`: either the chosen container's
contents are replaced by the lyrics block, or a new section is appended to
the end of `document.body`. -/
inductive BodyUpdate where
  | replaceContents (target : Elem) (newChild : Elem)
  | appendToBody (newSection : Elem)

/-- `updateArticleBody` from content.js, as the DOM effect it performs. -/
def updateArticleBody (d : Document) (songLyrics : String) : BodyUpdate :=
  match findUpdateContainer d articleBodyContainerSelectors with
  | some (_, e) => BodyUpdate.replaceContents e (mkLyricsContainer songLyrics)
  | none => BodyUpdate.appendToBody (mkAppendedSection songLyrics)

/-! ## Messages between content script and background worker -/

structure TransformRequest where
  articleTitle : String
  articleBody : String

structure TransformResponse where
  success : Bool
  movieTitle : Option String
  songLyrics : Option String
  error : Option String

/-! ## content.js: `transformArticle` as a two-phase step function

`transformArticle` is `async`: it runs synchronously up to the `await` of
`chrome.runtime.sendMessage`, then suspends and resumes when the response
arrives.  `stepStart` is the part before the `await` (guard check,
extraction, progress notification, request dispatch); `stepResume` is the
continuation (render on success, failure notification otherwise).  The
observable actions are recorded as a trace of events. -/

inductive Event where
  | extracted
  | notified (msg : String) (kind : String)
  | sent (req : TransformRequest)
  | titleUpdated (t : String)
  | bodyUpdated (l : String)

/-- The page-script state: the `isTransformed` flag plus the trace of
observable actions performed so far. -/
structure PageState where
  isTransformed : Bool
  trace : List Event

/-- Where an invocation of `transformArticle` stands: not yet past the
`await`, suspended at the `await`, or finished. -/
inductive Phase where
  | start
  | awaiting
  | done

def progressNotice : String := "Transforming article... Please wait for the magic!"

def successNotice : String := "Article transformed into a Bollywood masterpiece!"

def extractFailNotice : String :=
  "Could not find enough article content to transform. Try a different article or newspaper."

def isExtracted : Event → Bool
  | .extracted => true
  | _ => false

def isSent : Event → Bool
  | .sent _ => true
  | _ => false

def isTitleUpdate : Event → Bool
  | .titleUpdated _ => true
  | _ => false

def isBodyUpdate : Event → Bool
  | .bodyUpdated _ => true
  | _ => false

def countEvents (p : Event → Bool) (tr : List Event) : Nat :=
  (tr.filter p).length

/-- The first half of `transformArticle`: return immediately when
`isTransformed` is set; otherwise extract title and body, and either notify
progress and send the request (suspending at the `await`) or notify failure. -/
def stepStart (d : Document) (s : PageState) : PageState × Phase :=
  if s.isTransformed then (s, Phase.done)
  else
    let title := getArticleTitle d
    let body := getArticleBody d
    if truthy title && truthy body then
      ({ s with
          trace := s.trace ++
            [Event.extracted, Event.notified progressNotice "success",
             Event.sent (TransformRequest.mk (title.getD "") (body.getD ""))] },
       Phase.awaiting)
    else
      ({ s with trace := s.trace ++ [Event.extracted, Event.notified extractFailNotice "error"] },
       Phase.done)

/-- The continuation of `transformArticle` after the response arrives: on
success rewrite the title and body and set `isTransformed`; otherwise show
the failure notification built from `response.error || 'Unknown error'`. -/
def stepResume (r : TransformResponse) (s : PageState) : PageState :=
  if r.success then
    { isTransformed := true,
      trace := s.trace ++
        [Event.titleUpdated (r.movieTitle.getD ""), Event.bodyUpdated (r.songLyrics.getD ""),
         Event.notified successNotice "success"] }
  else
    { s with
        trace := s.trace ++
          [Event.notified ("Transformation failed: " ++ jsOr r.error "Unknown error") "error"] }

/-- Names for two invocations of `transformArticle` in one page lifetime. -/
inductive InvId where
  | first
  | second

/-- The joint state of the page and of both invocations. -/
structure TwoInvState where
  page : PageState
  phaseA : Phase
  phaseB : Phase

/-- Run one scheduler step: the named invocation performs its next phase
(its response `rA`/`rB` is consumed when it resumes from the `await`). -/
def stepInv (d : Document) (rA rB : TransformResponse) (i : InvId) (st : TwoInvState) :
    TwoInvState :=
  match i with
  | .first =>
    match st.phaseA with
    | .start =>
      let p := stepStart d st.page
      { st with page := p.1, phaseA := p.2 }
    | .awaiting => { st with page := stepResume rA st.page, phaseA := Phase.done }
    | .done => st
  | .second =>
    match st.phaseB with
    | .start =>
      let p := stepStart d st.page
      { st with page := p.1, phaseB := p.2 }
    | .awaiting => { st with page := stepResume rB st.page, phaseB := Phase.done }
    | .done => st

/-- Execute an interleaving of two `transformArticle` invocations from a
fresh page load (`isTransformed = false`, empty trace). -/
def runTwo (d : Document) (rA rB : TransformResponse) (sched : List InvId) : TwoInvState :=
  sched.foldl (fun st i => stepInv d rA rB i st)
    (TwoInvState.mk (PageState.mk false []) Phase.start Phase.start)

/-! ## background.js: the Gemini orchestration -/

def defaultMovieTitle : String := "A Filmy Twist"

def defaultSongLyrics : String := "A melodious tale awaits..."

structure GeminiPart where
  text : String

structure GeminiContent where
  parts : Option (List GeminiPart)

structure GeminiCandidate where
  content : Option GeminiContent

/-- The parsed shape of a Gemini response body, as far as the code reads it. -/
structure GeminiJson where
  apiError : Option String
  candidates : Option (List GeminiCandidate)

/-- What a `fetch` of the Gemini endpoint does: reject (network error),
resolve but fail JSON-body parsing, or produce a parsed JSON value.
Exception messages are optional, as in JS. -/
inductive FetchOutcome where
  | netError (msg : Option String)
  | parseError (msg : Option String)
  | ok (j : GeminiJson)

/-- `await fetch(...); await resp.json()` as a fallible computation. -/
def fetchJson : FetchOutcome → Except (Option String) GeminiJson
  | .netError m => Except.error m
  | .parseError m => Except.error m
  | .ok j => Except.ok j

/-- The candidate check both generation blocks perform: use the first
candidate's first part (trimmed) when the whole chain is present and
non-empty, otherwise keep the default string. -/
def extractCandidateText (j : GeminiJson) (dflt : String) : String :=
  match j.candidates with
  | some (c :: _) =>
    match c.content with
    | some ct =>
      match ct.parts with
      | some (p :: _) => jsTrim p.text
      | some [] => dflt
      | none => dflt
    | none => dflt
  | some [] => dflt
  | none => dflt

/-- Which Gemini requests an execution issued. -/
inductive GeminiCall where
  | movieTitleCall
  | songLyricsCall

/-- The `try` block of `transformArticleWithGemini`: the movie-title call,
then the song-lyrics call, each degrading to its default string when the
parsed response has no usable candidate; any thrown exception escapes the
block.  Also records which calls were issued. -/
def transformTryBlock (t s : FetchOutcome) :
    Except (Option String) (String × String) × List GeminiCall :=
  match fetchJson t with
  | Except.error e => (Except.error e, [GeminiCall.movieTitleCall])
  | Except.ok movieResult =>
    let generatedMovieTitle := extractCandidateText movieResult defaultMovieTitle
    match fetchJson s with
    | Except.error e => (Except.error e, [GeminiCall.movieTitleCall, GeminiCall.songLyricsCall])
    | Except.ok songResult =>
      (Except.ok (generatedMovieTitle, extractCandidateText songResult defaultSongLyrics),
       [GeminiCall.movieTitleCall, GeminiCall.songLyricsCall])

/-- `transformArticleWithGemini` from background.js: the `try` block with
its `catch` converting any exception into a failure response carrying
`error.message || "Network or API response parsing error."`. -/
def transformArticleWithGemini (t s : FetchOutcome) : TransformResponse × List GeminiCall :=
  match transformTryBlock t s with
  | (Except.ok r, calls) =>
    (TransformResponse.mk true (some r.1) (some r.2) none, calls)
  | (Except.error e, calls) =>
    (TransformResponse.mk false none none
      (some (jsOr e "Network or API response parsing error.")), calls)

/-- The `onMessage` listener's delivery of the settled promise: a resolved
response is forwarded as is; a rejection is converted into a failure
response carrying
`error.message || "An unexpected error occurred during API call."`. -/
def onMessageDeliver : Except (Option String) TransformResponse → TransformResponse
  | Except.ok r => r
  | Except.error e =>
    TransformResponse.mk false none none
      (some (jsOr e "An unexpected error occurred during API call."))

/-! ## Amended specification of `getArticleTitle`

The spec's claim for the title cascade fails on whitespace-only headings
(see the C5 counterexample below); the amended behaviour is: take the first
heading selector whose match has non-empty raw `textContent` and return its
trimmed text, which may itself be empty. -/

/-- What the amended C5 claim says `getArticleTitle` computes: among the
heading-level (`h1`-prefixed) selectors in order, the first match with
non-empty raw text wins and its trimmed text is returned (possibly the
empty string); otherwise the `og:title` meta content, then `document.title`,
each trimmed when non-empty; otherwise `none`. -/
def specAmendedTitle (d : Document) : Option String :=
  match ((titleSelectors.filter (fun s => jsStartsWith s "h1")).filterMap
      (fun s => docQuery d s)).find? (fun e => elemText e != "") with
  | some e => some (jsTrim (elemText e))
  | none =>
    match docQuery d "meta[property=\"og:title\"]" with
    | some m =>
      match m.attr "content" with
      | some c => if c != "" then some (jsTrim c) else titleFallbackDocTitle d
      | none => titleFallbackDocTitle d
    | none => titleFallbackDocTitle d

/-! ## Concrete pages and responses used by counterexamples and witnesses -/

/-- A page with a plain `h1` and a `div.story-content` holding one long
paragraph: both extractions succeed. -/
def h1Ex : Elem := Elem.mk "h1" [] "" [] true "Local Dog Wins National Dog Show" []

def pEx : Elem :=
  Elem.mk "p" [] "" [] true
    "The golden retriever delighted the judges and won every single round." []

def contEx : Elem := Elem.mk "div" ["story-content"] "" [] true "" [pEx]

def docEx : Document := Document.mk (Elem.mk "html" [] "" [] true "" [h1Ex, contEx]) "x"

/-- A successful background response. -/
def respOK : TransformResponse :=
  TransformResponse.mk true (some "Buddy: The Golden Heart") (some "Pyaar ka safar") none

/-- A page whose only `h1` holds a single space, with an `og:title` meta tag
carrying a real title: the whitespace heading wins the cascade. -/
def h1Ws : Elem := Elem.mk "h1" [] "" [] true " " []

def metaOg : Elem :=
  Elem.mk "meta" [] "" [("property", "og:title"), ("content", "Real Title")] true "" []

def docC5 : Document := Document.mk (Elem.mk "html" [] "" [] true "" [h1Ws, metaOg]) "Doc Title"

/-- A page with nothing to extract. -/
def emptyDoc : Document := Document.mk (Elem.mk "html" [] "" [] true "" []) ""

/-- A 30-character caption paragraph, as in the spec's example. -/
def pShort : Elem := Elem.mk "p" [] "" [] true "A thirty char caption here ok." []

/-- A `div.story-content` with one long paragraph and one 30-character
caption. -/
def cC6 : Elem := Elem.mk "div" ["story-content"] "" [] true "" [pEx, pShort]

def docC6 : Document := Document.mk (Elem.mk "html" [] "" [] true "" [cC6]) ""

/-- A `div.article-body` with no paragraph-like children whose own text is
longer than 100 characters. -/
def cC10 : Elem :=
  Elem.mk "div" ["article-body"] "" [] true
    "The committee met for hours and finally announced a sweeping decision that will reshape the entire district for years."
    []

def docC10 : Document := Document.mk (Elem.mk "html" [] "" [] true "" [cC10]) ""

/-- A visible `div[data-articlebody="1"]` containing a paragraph, so it
qualifies as the update container. -/
def cC9 : Elem :=
  Elem.mk "div" [] "" [("data-articlebody", "1")] true "" [Elem.mk "p" [] "" [] true "x" []]

def docC9 : Document := Document.mk (Elem.mk "html" [] "" [] true "" [cC9]) ""

/-- A well-formed Gemini response with one candidate. -/
def jGood : GeminiJson :=
  GeminiJson.mk none
    (some [GeminiCandidate.mk (some (GeminiContent.mk (some [GeminiPart.mk "Buddy: The Golden Heart"])))])

/-- A parsed response with no `candidates` field at all. -/
def jEmpty : GeminiJson := GeminiJson.mk none none

/-! ## Helper lemmas -/

theorem stepInv_done (d : Document) (rA rB : TransformResponse) (i : InvId)
    (st : TwoInvState) (hA : st.phaseA = Phase.done) (hB : st.phaseB = Phase.done) :
    stepInv d rA rB i st = st := by
  cases i <;> simp [stepInv, hA, hB]

theorem foldl_stepInv_done (d : Document) (rA rB : TransformResponse) (rest : List InvId)
    (st : TwoInvState) (hA : st.phaseA = Phase.done) (hB : st.phaseB = Phase.done) :
    rest.foldl (fun st i => stepInv d rA rB i st) st = st := by
  induction rest with
  | nil => rfl
  | cons i is ih => simp [List.foldl_cons, stepInv_done d rA rB i st hA hB, ih]

/-! ## C1 -/

/-- C1 counterexample: the claim says the PageTransformState guard makes a
second concurrent `run()` invocation return immediately without extracting,
so extraction would happen at most once.  On the page `docEx`, scheduling
the second invocation's first phase while the first invocation is suspended
at its `await` yields two extractions: the guard is only set after a
successful render, so it does not protect the mid-flight window. -/
theorem c1_counterexample :
    countEvents isExtracted
      ((runTwo docEx respOK respOK [InvId.first, InvId.second]).page.trace) = 2 := rfl

/-- C1 amended: the guard gives at-most-once execution only after a
successful completion.  If extraction succeeds and the first invocation's
response is successful, then in any schedule where the first invocation runs
to completion before the second starts, the second returns immediately:
exactly one extraction and one request in total, whatever happens later. -/
theorem c1_amended (d : Document) (rA rB : TransformResponse) (rest : List InvId)
    (ht : truthy (getArticleTitle d) = true) (hb : truthy (getArticleBody d) = true)
    (hs : rA.success = true) :
    countEvents isExtracted
        ((runTwo d rA rB ([InvId.first, InvId.first, InvId.second] ++ rest)).page.trace) = 1 ∧
    countEvents isSent
        ((runTwo d rA rB ([InvId.first, InvId.first, InvId.second] ++ rest)).page.trace) = 1 := by
  have hrun : runTwo d rA rB ([InvId.first, InvId.first, InvId.second] ++ rest) =
      runTwo d rA rB [InvId.first, InvId.first, InvId.second] := by
    unfold runTwo
    rw [List.foldl_append]
    apply foldl_stepInv_done
    · simp [List.foldl, stepInv, stepStart, stepResume, ht, hb, hs]
    · simp [List.foldl, stepInv, stepStart, stepResume, ht, hb, hs]
  rw [hrun]
  constructor <;>
    simp [runTwo, List.foldl, stepInv, stepStart, stepResume, ht, hb, hs, countEvents,
      List.filter, isExtracted, isSent]

/-- C1 amended, witnessed on the concrete page `docEx` with successful
responses. -/
theorem c1_amended_witness :
    truthy (getArticleTitle docEx) = true ∧ truthy (getArticleBody docEx) = true ∧
    respOK.success = true ∧
    countEvents isExtracted
      ((runTwo docEx respOK respOK [InvId.first, InvId.first, InvId.second]).page.trace) = 1 := by
  refine ⟨rfl, rfl, rfl, ?_⟩
  have h := (c1_amended docEx respOK respOK [] rfl rfl rfl).1
  simpa using h

/-! ## C2 -/

/-- C2 counterexample: the claim says two invocations of `run()` in one page
lifetime perform DOM mutation at most once in total.  When the two
invocations overlap (both pass the guard before either response arrives),
both rewrite the title and the body: two title updates and two body updates
on `docEx`. -/
theorem c2_counterexample :
    countEvents isTitleUpdate
        ((runTwo docEx respOK respOK
          [InvId.first, InvId.second, InvId.first, InvId.second]).page.trace) = 2 ∧
    countEvents isBodyUpdate
        ((runTwo docEx respOK respOK
          [InvId.first, InvId.second, InvId.first, InvId.second]).page.trace) = 2 := by
  exact ⟨rfl, rfl⟩

/-- C2 amended: when the two invocations do not overlap — the second starts
only after the first has run to completion — DOM mutation happens at most
once in total, for every page and every pair of responses. -/
theorem c2_amended (d : Document) (rA rB : TransformResponse) :
    countEvents isTitleUpdate
        ((runTwo d rA rB [InvId.first, InvId.first, InvId.second, InvId.second]).page.trace) ≤ 1 ∧
    countEvents isBodyUpdate
        ((runTwo d rA rB [InvId.first, InvId.first, InvId.second, InvId.second]).page.trace) ≤ 1 := by
  by_cases hc : (truthy (getArticleTitle d) && truthy (getArticleBody d)) = true
  · by_cases ha : rA.success = true
    · constructor <;>
        simp [runTwo, List.foldl, stepInv, stepStart, stepResume, hc, ha, countEvents,
          List.filter, isTitleUpdate, isBodyUpdate]
    · rw [Bool.not_eq_true] at ha
      by_cases hbs : rB.success = true
      · constructor <;>
          simp [runTwo, List.foldl, stepInv, stepStart, stepResume, hc, ha, hbs, countEvents,
            List.filter, isTitleUpdate, isBodyUpdate]
      · rw [Bool.not_eq_true] at hbs
        constructor <;>
          simp [runTwo, List.foldl, stepInv, stepStart, stepResume, hc, ha, hbs, countEvents,
            List.filter, isTitleUpdate, isBodyUpdate]
  · rw [Bool.not_eq_true] at hc
    constructor <;>
      simp [runTwo, List.foldl, stepInv, stepStart, stepResume, hc, countEvents,
        List.filter, isTitleUpdate, isBodyUpdate]

/-! ## C4 -/

/-- C4: on a failed `TransformResponse` the resumed `transformArticle` only
appends the failure notification — the title and body are not rewritten, the
flag is unchanged — and the notification text is the response's error, with
`"Unknown error"` substituted when the error is absent (or the empty
string). -/
theorem c4_theorem (r : TransformResponse) (s : PageState) (h : r.success = false) :
    stepResume r s =
      { s with
          trace := s.trace ++
            [Event.notified ("Transformation failed: " ++ jsOr r.error "Unknown error") "error"] } ∧
    countEvents isTitleUpdate (stepResume r s).trace = countEvents isTitleUpdate s.trace ∧
    countEvents isBodyUpdate (stepResume r s).trace = countEvents isBodyUpdate s.trace ∧
    (r.error = none → jsOr r.error "Unknown error" = "Unknown error") ∧
    (∀ e, r.error = some e → e ≠ "" → jsOr r.error "Unknown error" = e) := by
  refine ⟨by simp [stepResume, h], ?_, ?_, ?_, ?_⟩
  · simp [stepResume, h, countEvents, List.filter_append, List.filter, isTitleUpdate]
  · simp [stepResume, h, countEvents, List.filter_append, List.filter, isBodyUpdate]
  · intro he
    simp [jsOr, he]
  · intro e he hne
    simp [jsOr, he, hne]

/-- C4 witnessed on a concrete failure response carrying an error message. -/
theorem c4_witness :
    (TransformResponse.mk false none none (some "API quota exceeded")).success = false ∧
    stepResume (TransformResponse.mk false none none (some "API quota exceeded"))
        (PageState.mk false []) =
      PageState.mk false
        [Event.notified "Transformation failed: API quota exceeded" "error"] := by
  refine ⟨rfl, ?_⟩
  have h := (c4_theorem (TransformResponse.mk false none none (some "API quota exceeded"))
    (PageState.mk false []) rfl).1
  simpa using h

/-! ## C7 -/

/-- C7: when either extraction comes back absent (and the guard has not yet
fired), `transformArticle` appends the extraction-failure notification and
finishes: no request is ever sent to the background worker, and no DOM
mutation happens. -/
theorem c7_theorem (d : Document) (s : PageState) (hflag : s.isTransformed = false)
    (habs : getArticleTitle d = none ∨ getArticleBody d = none) :
    stepStart d s =
      ({ s with trace := s.trace ++ [Event.extracted, Event.notified extractFailNotice "error"] },
       Phase.done) ∧
    countEvents isSent (stepStart d s).1.trace = countEvents isSent s.trace ∧
    countEvents isTitleUpdate (stepStart d s).1.trace = countEvents isTitleUpdate s.trace ∧
    countEvents isBodyUpdate (stepStart d s).1.trace = countEvents isBodyUpdate s.trace := by
  have hcond : (truthy (getArticleTitle d) && truthy (getArticleBody d)) = false := by
    rcases habs with h | h <;> simp [h, truthy]
  refine ⟨by simp [stepStart, hflag, hcond], ?_, ?_, ?_⟩ <;>
    simp [stepStart, hflag, hcond, countEvents, List.filter_append, List.filter,
      isSent, isTitleUpdate, isBodyUpdate]

/-- C7 witnessed on the empty page, where both extractions are absent. -/
theorem c7_witness :
    getArticleTitle emptyDoc = none ∧ getArticleBody emptyDoc = none ∧
    stepStart emptyDoc (PageState.mk false []) =
      (PageState.mk false [Event.extracted, Event.notified extractFailNotice "error"],
       Phase.done) := by
  refine ⟨rfl, rfl, ?_⟩
  have h := (c7_theorem emptyDoc (PageState.mk false []) rfl (Or.inl rfl)).1
  simpa using h

/-! ## C3 -/

/-- C3 counterexample: the claim says a parse error in one call must not
block the other call from being attempted (only a network-level exception
aborts everything).  In the code both calls sit in one `try` block, so a
JSON-parse exception in the movie-title call aborts the whole operation: the
song-lyrics request is never issued and the response is a failure, not a
success with a default title. -/
theorem c3_counterexample :
    transformArticleWithGemini (FetchOutcome.parseError (some "Unexpected token < in JSON"))
        (FetchOutcome.ok jGood) =
      (TransformResponse.mk false none none (some "Unexpected token < in JSON"),
       [GeminiCall.movieTitleCall]) := rfl

/-- C3 amended: a parsed response without usable candidates degrades to the
fixed default string for that field and the transform still succeeds — in
particular a candidate-less title response does not block the song call —
but any exception thrown during either request, network failure and
JSON-parse failure alike, aborts the entire operation (skipping any
remaining call) and yields a failure response carrying the exception's
message, or the fixed fallback message when it has none. -/
theorem c3_amended (j1 j2 : GeminiJson) (m : Option String) :
    (transformArticleWithGemini (FetchOutcome.ok j1) (FetchOutcome.ok j2) =
      (TransformResponse.mk true (some (extractCandidateText j1 defaultMovieTitle))
        (some (extractCandidateText j2 defaultSongLyrics)) none,
       [GeminiCall.movieTitleCall, GeminiCall.songLyricsCall])) ∧
    (j1.candidates = none → extractCandidateText j1 defaultMovieTitle = defaultMovieTitle) ∧
    (transformArticleWithGemini (FetchOutcome.netError m) (FetchOutcome.ok j2) =
      (TransformResponse.mk false none none
        (some (jsOr m "Network or API response parsing error.")),
       [GeminiCall.movieTitleCall])) ∧
    (transformArticleWithGemini (FetchOutcome.parseError m) (FetchOutcome.ok j2) =
      (TransformResponse.mk false none none
        (some (jsOr m "Network or API response parsing error.")),
       [GeminiCall.movieTitleCall])) ∧
    (transformArticleWithGemini (FetchOutcome.ok j1) (FetchOutcome.netError m) =
      (TransformResponse.mk false none none
        (some (jsOr m "Network or API response parsing error.")),
       [GeminiCall.movieTitleCall, GeminiCall.songLyricsCall])) ∧
    (transformArticleWithGemini (FetchOutcome.ok j1) (FetchOutcome.parseError m) =
      (TransformResponse.mk false none none
        (some (jsOr m "Network or API response parsing error.")),
       [GeminiCall.movieTitleCall, GeminiCall.songLyricsCall])) := by
  refine ⟨rfl, ?_, rfl, rfl, rfl, rfl⟩
  intro h
  simp [extractCandidateText, h]

/-- C3 amended, witnessed: a candidate-less title response still yields
`success = true` with the default movie title, and the song call is issued. -/
theorem c3_amended_witness :
    jEmpty.candidates = none ∧
    transformArticleWithGemini (FetchOutcome.ok jEmpty) (FetchOutcome.ok jGood) =
      (TransformResponse.mk true (some defaultMovieTitle) (some "Buddy: The Golden Heart") none,
       [GeminiCall.movieTitleCall, GeminiCall.songLyricsCall]) := by
  refine ⟨rfl, ?_⟩
  have h := (c3_amended jEmpty jGood none).1
  have hd := (c3_amended jEmpty jGood none).2.1 rfl
  rw [h, hd]
  rfl

/-! ## C8 -/

/-- C8: an exception during the orchestrator's handling never escapes to the
host.  An exception inside `transformArticleWithGemini` is caught by its
`catch` and becomes `{success := false, error := message-or-fallback}`,
which the `onMessage` listener forwards unchanged; a rejection reaching the
listener's own `.catch` is likewise converted into a failure response with
the exception's message or the listener's generic fallback string. -/
theorem c8_theorem (t s : FetchOutcome) (e e' : Option String) :
    ((transformTryBlock t s).1 = Except.error e →
      (transformArticleWithGemini t s).1 =
        TransformResponse.mk false none none
          (some (jsOr e "Network or API response parsing error."))) ∧
    (onMessageDeliver (Except.error e') =
      TransformResponse.mk false none none
        (some (jsOr e' "An unexpected error occurred during API call."))) ∧
    (onMessageDeliver (Except.ok (transformArticleWithGemini t s).1) =
      (transformArticleWithGemini t s).1) := by
  refine ⟨?_, rfl, rfl⟩
  intro h
  rcases hts : transformTryBlock t s with ⟨r, calls⟩
  rw [hts] at h
  simp only at h
  subst h
  simp [transformArticleWithGemini, hts]

/-- C8 witnessed: a network exception with a message is converted into the
failure response carrying that message. -/
theorem c8_witness :
    (transformTryBlock (FetchOutcome.netError (some "Failed to fetch"))
        (FetchOutcome.ok jGood)).1 = Except.error (some "Failed to fetch") ∧
    (transformArticleWithGemini (FetchOutcome.netError (some "Failed to fetch"))
        (FetchOutcome.ok jGood)).1 =
      TransformResponse.mk false none none (some "Failed to fetch") := by
  refine ⟨rfl, ?_⟩
  have h := (c8_theorem (FetchOutcome.netError (some "Failed to fetch"))
    (FetchOutcome.ok jGood) (some "Failed to fetch") none).1 rfl
  simpa using h

/-! ## C5 -/

/-- C5 counterexample: the claim says the cascade returns the first
non-empty trimmed heading text, falling back to `og:title` when no heading
yields non-empty text.  On `docC5` the only `h1` holds a single space: its
raw text is truthy, so the loop returns the trimmed empty string instead of
falling back to the available `og:title` content `"Real Title"`. -/
theorem c5_counterexample :
    getArticleTitle docC5 = some "" ∧
    (docQuery docC5 "meta[property=\"og:title\"]").isSome = true ∧
    getArticleTitle docC5 ≠ some "Real Title" := by
  refine ⟨rfl, rfl, ?_⟩
  have h0 : getArticleTitle docC5 = some "" := rfl
  rw [h0]
  decide

/-- The selector loop returns the trimmed text of the first `h1`-prefixed
selector whose match has non-empty raw text. -/
theorem titleLoop_eq (d : Document) (sels : List String) :
    titleLoop d sels =
      (((sels.filter (fun s => jsStartsWith s "h1")).filterMap
          (fun s => docQuery d s)).find? (fun e => elemText e != "")).map
        (fun e => jsTrim (elemText e)) := by
  induction sels with
  | nil => rfl
  | cons sel rest ih =>
    by_cases hs : jsStartsWith sel "h1" = true
    · cases hq : docQuery d sel with
      | none => simp [titleLoop, hq, List.filter_cons, hs, ih]
      | some e =>
        by_cases ht : (elemText e != "") = true
        · simp [titleLoop, hq, List.filter_cons, hs, ht, List.filterMap_cons, List.find?]
        · rw [Bool.not_eq_true] at ht
          simp [titleLoop, hq, List.filter_cons, hs, ht, List.filterMap_cons, List.find?, ih]
    · rw [Bool.not_eq_true] at hs
      cases hq : docQuery d sel with
      | none => simp [titleLoop, hq, List.filter_cons, hs, ih]
      | some e => simp [titleLoop, hq, List.filter_cons, hs, ih]

/-- C5 amended: `getArticleTitle` returns the trimmed text of the first
heading-level selector whose match has non-empty raw text — the trimmed
result may itself be empty — and only when no heading has non-empty raw
text does it fall back to the `og:title` meta content and then to
`document.title`, returning `none` when nothing is available. -/
theorem c5_amended (d : Document) : getArticleTitle d = specAmendedTitle d := by
  unfold getArticleTitle specAmendedTitle
  rw [titleLoop_eq]
  cases hf : ((titleSelectors.filter (fun s => jsStartsWith s "h1")).filterMap
      (fun s => docQuery d s)).find? (fun e => elemText e != "") with
  | none => rfl
  | some e => rfl

/-! ## C6 -/

/-- The paragraph pipeline of `getArticleBody` written as trim-then-filter. -/
theorem filterMap_trim_filter (xs : List Elem) :
    (xs.filterMap (fun p =>
      let text := jsTrim (elemText p)
      if 50 < jsLength text then some text else none)) =
    (xs.map (fun p => jsTrim (elemText p))).filter (fun t => 50 < jsLength t) := by
  induction xs with
  | nil => rfl
  | cons x xs ih =>
    by_cases h : 50 < jsLength (jsTrim (elemText x)) <;>
      simp [List.filterMap_cons, List.filter_cons, h, ih]

/-- C6: once a container is found and it has paragraph-like descendants,
`getArticleBody` keeps exactly the trimmed fragments longer than 50
characters, joins them with blank lines, and returns `none` when no
fragment qualifies; every surviving fragment exceeds the threshold. -/
theorem c6_theorem (d : Document) (c : Elem)
    (hfind : findContainer d articleBodySelectors = some c)
    (hp : 0 < (elemQueryAll c "p, div.Normal").length) :
    (getArticleBody d =
      if ((elemQueryAll c "p, div.Normal").map (fun p => jsTrim (elemText p))).filter
          (fun t => 50 < jsLength t) = [] then none
      else some (joinSep "\n\n"
        (((elemQueryAll c "p, div.Normal").map (fun p => jsTrim (elemText p))).filter
          (fun t => 50 < jsLength t)))) ∧
    ∀ t ∈ ((elemQueryAll c "p, div.Normal").map (fun p => jsTrim (elemText p))).filter
        (fun t => 50 < jsLength t), 50 < jsLength t := by
  constructor
  · have h1 : getArticleBody d =
        if 0 < (((elemQueryAll c "p, div.Normal").map (fun p => jsTrim (elemText p))).filter
            (fun t => 50 < jsLength t)).length then
          some (joinSep "\n\n"
            (((elemQueryAll c "p, div.Normal").map (fun p => jsTrim (elemText p))).filter
              (fun t => 50 < jsLength t)))
        else none := by
      simp only [getArticleBody, hfind, hp, if_true, filterMap_trim_filter]
    rw [h1]
    cases hk : ((elemQueryAll c "p, div.Normal").map (fun p => jsTrim (elemText p))).filter
        (fun t => 50 < jsLength t) with
    | nil => simp
    | cons a l => simp
  · intro t ht
    have h2 := List.mem_filter.mp ht
    simpa using h2.2

/-- C6 witnessed: in a `div.story-content` holding a 70-character paragraph
and the spec's 30-character caption, the caption is dropped and the long
paragraph alone becomes the body. -/
theorem c6_witness :
    findContainer docC6 articleBodySelectors = some cC6 ∧
    0 < (elemQueryAll cC6 "p, div.Normal").length ∧
    jsLength "A thirty char caption here ok." = 30 ∧
    getArticleBody docC6 =
      some "The golden retriever delighted the judges and won every single round." := by
  refine ⟨rfl, by decide, rfl, ?_⟩
  rw [(c6_theorem docC6 cC6 rfl (by decide)).1]
  rfl

/-! ## C10 -/

/-- C10 (implicit behaviour): when the found container has no
paragraph-like descendants, `getArticleBody` falls back to the container's
own trimmed text and returns it exactly when it is longer than 100
characters, returning `none` otherwise. -/
theorem c10_theorem (d : Document) (c : Elem)
    (hfind : findContainer d articleBodySelectors = some c)
    (hp : (elemQueryAll c "p, div.Normal").length = 0) :
    (100 < jsLength (jsTrim (elemText c)) → getArticleBody d = some (jsTrim (elemText c))) ∧
    (¬ 100 < jsLength (jsTrim (elemText c)) → getArticleBody d = none) ∧
    (getArticleBody d = some (jsTrim (elemText c)) ↔ 100 < jsLength (jsTrim (elemText c))) := by
  have hnp : ¬ 0 < (elemQueryAll c "p, div.Normal").length := by omega
  have hpos : 100 < jsLength (jsTrim (elemText c)) →
      getArticleBody d = some (jsTrim (elemText c)) := by
    intro h
    simp [getArticleBody, hfind, hnp, h, joinSep]
  have hneg : ¬ 100 < jsLength (jsTrim (elemText c)) → getArticleBody d = none := by
    intro h
    simp [getArticleBody, hfind, hnp, h]
  refine ⟨hpos, hneg, ?_, hpos⟩
  intro heq
  by_contra hlt
  rw [hneg hlt] at heq
  exact Option.noConfusion heq

/-- C10 witnessed: a `div.article-body` with no paragraph children and 118
characters of its own text becomes the body verbatim. -/
theorem c10_witness :
    findContainer docC10 articleBodySelectors = some cC10 ∧
    (elemQueryAll cC10 "p, div.Normal").length = 0 ∧
    100 < jsLength (jsTrim (elemText cC10)) ∧
    getArticleBody docC10 = some (jsTrim (elemText cC10)) := by
  refine ⟨rfl, rfl, by decide, ?_⟩
  exact (c10_theorem docC10 cC10 rfl rfl).1 (by decide)

/-! ## C9 -/

theorem elemText_leaf (t : String) (cs : List String) (i : String)
    (as : List (String × String)) (v : Bool) (own : String) :
    elemText (Elem.mk t cs i as v own []) = own := by
  simp [elemText, listText, String.append_empty]

/-- The texts of the lyrics block's children: one per non-blank line, then
the signature. -/
theorem mkLyricsContainer_texts (songLyrics : String) :
    (mkLyricsContainer songLyrics).children.map elemText =
      ((splitChar songLyrics '\n').filter (fun line => jsTrim line != "")) ++ [signatureText] := by
  have hmap : ∀ lines : List String,
      (lines.map (fun line => Elem.mk "p" ["my-2"] "" [] true line [])).map elemText = lines := by
    intro lines
    rw [List.map_map]
    have h2 : (elemText ∘ fun line => Elem.mk "p" ["my-2"] "" [] true line []) = id := by
      funext line
      simp [Function.comp, elemText_leaf]
    rw [h2, List.map_id]
  simp [mkLyricsContainer, Elem.children, elemText_leaf, hmap]

/-- A container returned by the search loop of `updateArticleBody` passed
the qualification heuristic. -/
theorem findUpdateContainer_qualifies (d : Document) (sels : List String) (sel : String)
    (e : Elem) (h : findUpdateContainer d sels = some (sel, e)) :
    containerQualifies sel e = true := by
  induction sels with
  | nil => simp [findUpdateContainer] at h
  | cons s rest ih =>
    rw [findUpdateContainer] at h
    cases hq : docQuery d s with
    | none =>
      rw [hq] at h
      exact ih h
    | some x =>
      rw [hq] at h
      simp only at h
      by_cases hc : containerQualifies s x = true
      · rw [if_pos hc] at h
        have h2 := Option.some.inj h
        have hsel : s = sel := congrArg Prod.fst h2
        have he : x = e := congrArg Prod.snd h2
        rw [← hsel, ← he]
        exact hc
      · rw [if_neg hc] at h
        exact ih h

/-- C9: when the search loop finds a qualifying container,
`updateArticleBody` replaces that container's contents with the constructed
block — one paragraph per non-blank lyrics line plus the fixed signature
line — and when no container qualifies it appends a new section to the end
of `document.body` instead. -/
theorem c9_theorem (d : Document) (lyrics : String) :
    (∀ sel e, findUpdateContainer d articleBodyContainerSelectors = some (sel, e) →
      updateArticleBody d lyrics = BodyUpdate.replaceContents e (mkLyricsContainer lyrics) ∧
      containerQualifies sel e = true) ∧
    ((mkLyricsContainer lyrics).children.map elemText =
      ((splitChar lyrics '\n').filter (fun line => jsTrim line != "")) ++ [signatureText]) ∧
    (findUpdateContainer d articleBodyContainerSelectors = none →
      updateArticleBody d lyrics = BodyUpdate.appendToBody (mkAppendedSection lyrics)) := by
  refine ⟨?_, mkLyricsContainer_texts lyrics, ?_⟩
  · intro sel e h
    exact ⟨by simp [updateArticleBody, h], findUpdateContainer_qualifies d _ sel e h⟩
  · intro h
    simp [updateArticleBody, h]

/-- C9 witnessed on a page whose `div[data-articlebody="1"]` qualifies, with
two-stanza lyrics separated by a blank line. -/
theorem c9_witness :
    findUpdateContainer docC9 articleBodyContainerSelectors =
      some ("div[data-articlebody=\"1\"]", cC9) ∧
    updateArticleBody docC9 "Line one\n\nLine two" =
      BodyUpdate.replaceContents cC9 (mkLyricsContainer "Line one\n\nLine two") ∧
    (mkLyricsContainer "Line one\n\nLine two").children.map elemText =
      ["Line one", "Line two", signatureText] := by
  refine ⟨rfl, ?_, ?_⟩
  · exact ((c9_theorem docC9 "Line one\n\nLine two").1 _ _ rfl).1
  · rw [(c9_theorem docC9 "Line one\n\nLine two").2.1]
    rfl

end WebExt
